import Mathlib

/-!
Shallow embedding of the TripGo trip-distance reconciliation logic.

The embedded code is the trip-end request handler and its helper
functions from the express server source:
- calculateDistance (Haversine formula, lines 143-153),
- roundDistance (custom midpoint-down rounding, lines 156-168),
- the distance-source selection and new-odometer computation inside
  the trip-end handler (lines 563-632).

JavaScript numbers are modelled by a linear ordered field with a floor
structure; the reconciler itself is stated generically and instantiated
at the rationals (for executable, decidable reasoning) and at the reals
(for the Haversine computation, which uses sin, cos, sqrt and atan2).
Request-body fields that may be absent or non-numeric are modelled by a
small JavaScript-value type with constructors for a number, NaN, null
and undefined.
-/

namespace TripGo

/-- A value arriving in a JSON request body, as far as the reconciler
inspects it: a finite number, NaN, null, or undefined. -/
inductive JSVal (α : Type) where
  | num (val : α)
  | nan
  | null
  | undef
deriving DecidableEq

variable {α : Type} [LinearOrderedField α] [FloorRing α]

/-- JavaScript truthiness of the modelled values: a number is truthy
iff it is nonzero; NaN, null and undefined are falsy. -/
def truthy : JSVal α → Bool
  | .num v => decide (v ≠ 0)
  | _ => false

/-- The test in the source that the user-supplied end odometer was
provided: the value is strictly distinct from null and from undefined
(NaN counts as provided). -/
def provided : JSVal α → Bool
  | .null => false
  | .undef => false
  | _ => true

/-- A numeric greater-than comparison on a request value, as used in
the guard of the GPS branch: true only when the value is a number
strictly greater than the bound (comparisons with NaN are false; the
non-number cases are unreachable behind the truthiness guard). -/
def numGT (v : JSVal α) (c : α) : Bool :=
  match v with
  | .num x => decide (c < x)
  | _ => false

/-- roundDistance, lines 156-168 of the server source: non-numbers and
NaN map to 0; otherwise, with decimal part at most one half the value
is floored, else it is rounded up. -/
def roundDistance : JSVal α → α
  | .num value =>
      if value - (⌊value⌋ : α) ≤ 1 / 2 then (⌊value⌋ : α) else (⌈value⌉ : α)
  | _ => 0

/-- The distance-source selection of the trip-end handler, lines
573-592: the user-odometer branch yields the caller-supplied
actualTravelledDistance, the GPS branch requires a truthy gpsDistance
strictly above 0.01, and the fallback is the precomputed straight-line
distance. Returns the chosen (unrounded) value and the source tag. -/
def chooseDistance (userProvidedEndOdometer actualTravelledDistance gpsDistance : JSVal α)
    (straightLineDistance : α) : JSVal α × String :=
  if provided userProvidedEndOdometer then
    (actualTravelledDistance, "odometer reading")
  else if truthy gpsDistance && numGT gpsDistance (1 / 100) then
    (gpsDistance, "GPS tracking")
  else
    (JSVal.num straightLineDistance, "straight-line calculation")

/-- The value stored in the gpsDistance field of a completed trip,
line 626 of the source (gpsDistance or-else 0). -/
def gpsOrZero : JSVal α → α
  | .num v => v
  | _ => 0

/-- The fields of a finalized trip record that the reconciler
computes (the coordinate, area and timestamp fields are glue and are
not modelled). -/
structure CompletedTrip (α : Type) where
  startOdometer : α
  endOdometer : α
  totalDistance : α
  distanceSource : String
  gpsDistanceStored : α
deriving Repr

/-- The computational core of the trip-end handler, lines 563-632:
choose the distance source, apply the custom rounding to the chosen
distance, and derive the new odometer (the rounded user-provided value
when one was supplied, otherwise the rounded sum of the current
odometer and the rounded distance). The straight-line distance is a
parameter, mirroring the const computed at line 566. -/
def tripEnd (startOdometer currentOdometer : α)
    (userProvidedEndOdometer actualTravelledDistance gpsDistance : JSVal α)
    (straightLineDistance : α) : CompletedTrip α :=
  let chosen := chooseDistance userProvidedEndOdometer actualTravelledDistance gpsDistance
    straightLineDistance
  let roundedDistance := roundDistance chosen.1
  let newEndOdometer :=
    if provided userProvidedEndOdometer then
      roundDistance userProvidedEndOdometer
    else
      roundDistance (JSVal.num (currentOdometer + roundedDistance))
  { startOdometer := startOdometer
    endOdometer := newEndOdometer
    totalDistance := roundedDistance
    distanceSource := chosen.2
    gpsDistanceStored := gpsOrZero gpsDistance }

/-- JavaScript Math.round on a finite real: round half toward positive
infinity, equal to the floor of the argument plus one half. -/
noncomputable def jsRound (x : ℝ) : ℝ := (⌊x + 1 / 2⌋ : ℝ)

/-- JavaScript Math.atan2 on finite arguments. -/
noncomputable def atan2 (y x : ℝ) : ℝ :=
  if 0 < x then Real.arctan (y / x)
  else if x < 0 ∧ 0 ≤ y then Real.arctan (y / x) + Real.pi
  else if x < 0 ∧ y < 0 then Real.arctan (y / x) - Real.pi
  else if x = 0 ∧ 0 < y then Real.pi / 2
  else if x = 0 ∧ y < 0 then -(Real.pi / 2)
  else 0

/-- calculateDistance, lines 143-153 of the server source: the
Haversine great-circle distance between two coordinates on a sphere of
radius 6371 km, rounded to two decimal places with Math.round. -/
noncomputable def calculateDistance (lat1 lon1 lat2 lon2 : ℝ) : ℝ :=
  let R : ℝ := 6371
  let dLat := (lat2 - lat1) * Real.pi / 180
  let dLon := (lon2 - lon1) * Real.pi / 180
  let a := Real.sin (dLat / 2) * Real.sin (dLat / 2) +
    Real.cos (lat1 * Real.pi / 180) * Real.cos (lat2 * Real.pi / 180) *
      Real.sin (dLon / 2) * Real.sin (dLon / 2)
  let c := 2 * atan2 (Real.sqrt a) (Real.sqrt (1 - a))
  let distance := R * c
  jsRound (distance * 100) / 100

/-- The trip-end core with the straight-line fallback computed from
the stored start coordinate and the supplied end coordinate, exactly
as in lines 566-571 of the handler. -/
noncomputable def tripEndReal (startOdometer currentOdometer : ℝ)
    (userProvidedEndOdometer actualTravelledDistance gpsDistance : JSVal ℝ)
    (startLatitude startLongitude latitude longitude : ℝ) : CompletedTrip ℝ :=
  tripEnd startOdometer currentOdometer userProvidedEndOdometer actualTravelledDistance
    gpsDistance (calculateDistance startLatitude startLongitude latitude longitude)

/-! ## Helper lemmas -/

/-- Unfolding of roundDistance on a number. -/
lemma roundDistance_num (x : α) :
    roundDistance (JSVal.num x)
      = if x - (⌊x⌋ : α) ≤ 1 / 2 then (⌊x⌋ : α) else (⌈x⌉ : α) := rfl

omit [LinearOrderedField α] [FloorRing α] in
/-- The provided test is true exactly away from null and undefined. -/
lemma provided_eq_true_of_ne {v : JSVal α} (h1 : v ≠ JSVal.null) (h2 : v ≠ JSVal.undef) :
    provided v = true := by
  cases v with
  | num x => rfl
  | nan => rfl
  | null => exact absurd rfl h1
  | undef => exact absurd rfl h2

/-- roundDistance always produces an integer value. -/
lemma roundDistance_isInt (v : JSVal α) : ∃ n : ℤ, roundDistance v = (n : α) := by
  cases v with
  | num x =>
      rw [roundDistance_num]
      by_cases h : x - (⌊x⌋ : α) ≤ 1 / 2
      · exact ⟨⌊x⌋, by rw [if_pos h]⟩
      · exact ⟨⌈x⌉, by rw [if_neg h]⟩
  | nan => exact ⟨0, by simp [roundDistance]⟩
  | null => exact ⟨0, by simp [roundDistance]⟩
  | undef => exact ⟨0, by simp [roundDistance]⟩

/-- roundDistance fixes every integer-valued number. -/
lemma roundDistance_intCast (n : ℤ) : roundDistance (JSVal.num ((n : α))) = (n : α) := by
  simp [roundDistance]

/-- roundDistance of a nonnegative number is nonnegative. -/
lemma roundDistance_num_nonneg {x : α} (hx : 0 ≤ x) : 0 ≤ roundDistance (JSVal.num x) := by
  rw [roundDistance_num]
  by_cases h : x - (⌊x⌋ : α) ≤ 1 / 2
  · rw [if_pos h]
    exact_mod_cast Int.le_floor.mpr (by exact_mod_cast hx)
  · rw [if_neg h]
    exact_mod_cast Int.ceil_nonneg hx

/-! ## Claims -/

/-- C1 counterexample: the claim says the odometer branch computes the
chosen distance as userProvidedEndOdometer minus the current odometer;
on a call with userProvidedEndOdometer = 50, currentOdometer = 0 and
actualTravelledDistance = 7 the chosen distance is 7, not 50 - 0. -/
theorem odometer_branch_difference_cex :
    (chooseDistance (JSVal.num (50 : ℚ)) (JSVal.num 7) JSVal.undef 0).1
      ≠ JSVal.num (50 - 0) := by
  norm_num [chooseDistance, provided]

/-- C1 (amended): when userProvidedEndOdometer is provided (neither
null nor undefined), the chosen distance before rounding is the
caller-supplied actualTravelledDistance value, and the source tag is
odometer reading. -/
theorem odometer_branch_uses_actual (userOdo actual gps : JSVal ℚ) (sl : ℚ)
    (h : provided userOdo = true) :
    chooseDistance userOdo actual gps sl = (actual, "odometer reading") := by
  simp [chooseDistance, h]

/-- C1 witness: the amended odometer branch at a concrete call. -/
theorem odometer_branch_uses_actual_witness :
    provided (JSVal.num (50 : ℚ)) = true ∧
      chooseDistance (JSVal.num (50 : ℚ)) (JSVal.num 7) JSVal.undef 0
        = (JSVal.num 7, "odometer reading") :=
  ⟨rfl, odometer_branch_uses_actual (JSVal.num 50) (JSVal.num 7) JSVal.undef 0 rfl⟩

/-- C2: roundDistance on a number follows the midpoint-down rule,
floor when the decimal part is at most one half and ceiling otherwise;
in particular roundDistance 3.5 = 3, roundDistance 3.50001 = 4 and
roundDistance (-1.3) = -1. -/
theorem roundDistance_floor_ceil_rule :
    (∀ q : ℚ, roundDistance (JSVal.num q)
        = if q - (⌊q⌋ : ℚ) ≤ 1 / 2 then (⌊q⌋ : ℚ) else (⌈q⌉ : ℚ)) ∧
      roundDistance (JSVal.num (7 / 2 : ℚ)) = 3 ∧
      roundDistance (JSVal.num (350001 / 100000 : ℚ)) = 4 ∧
      roundDistance (JSVal.num (-13 / 10 : ℚ)) = -1 := by
  refine ⟨fun q => roundDistance_num q, ?_, ?_, ?_⟩
  · rw [roundDistance_num, show ⌊(7 / 2 : ℚ)⌋ = 3 from by
      rw [Int.floor_eq_iff]; norm_num, if_pos (by norm_num)]
    norm_num
  · rw [roundDistance_num, show ⌊(350001 / 100000 : ℚ)⌋ = 3 from by
      rw [Int.floor_eq_iff]; norm_num, if_neg (by norm_num),
      show ⌈(350001 / 100000 : ℚ)⌉ = 4 from by rw [Int.ceil_eq_iff]; norm_num]
    norm_num
  · rw [roundDistance_num, show ⌊(-13 / 10 : ℚ)⌋ = -2 from by
      rw [Int.floor_eq_iff]; norm_num, if_neg (by norm_num),
      show ⌈(-13 / 10 : ℚ)⌉ = -1 from by rw [Int.ceil_eq_iff]; norm_num]
    norm_num

/-- C3: whenever userProvidedEndOdometer is neither null nor
undefined, the reconciler takes the odometer-reading branch, whatever
the gpsDistance value is. -/
theorem user_odometer_priority (userOdo actual gps : JSVal ℚ) (sl : ℚ)
    (h1 : userOdo ≠ JSVal.null) (h2 : userOdo ≠ JSVal.undef) :
    (chooseDistance userOdo actual gps sl).2 = "odometer reading" := by
  simp [chooseDistance, provided_eq_true_of_ne h1 h2]

/-- C3 witness: userEndOdometer = 50 with gpsDistance = 10 takes the
odometer-reading branch. -/
theorem user_odometer_priority_witness :
    JSVal.num (50 : ℚ) ≠ JSVal.null ∧ JSVal.num (50 : ℚ) ≠ JSVal.undef ∧
      (chooseDistance (JSVal.num (50 : ℚ)) (JSVal.num 40) (JSVal.num 10) 0).2
        = "odometer reading" :=
  ⟨by simp, by simp,
    user_odometer_priority (JSVal.num 50) (JSVal.num 40) (JSVal.num 10) 0
      (by simp) (by simp)⟩

/-- C4: when userProvidedEndOdometer is absent (null or undefined) and
gpsDistance is a number strictly greater than 0.01, the chosen
distance is gpsDistance and the source tag is GPS tracking. -/
theorem gps_branch (userOdo actual : JSVal ℚ) (g sl : ℚ)
    (h1 : userOdo = JSVal.null ∨ userOdo = JSVal.undef) (h2 : 1 / 100 < g) :
    chooseDistance userOdo actual (JSVal.num g) sl = (JSVal.num g, "GPS tracking") := by
  have hp : provided userOdo = false := by
    rcases h1 with h | h <;> subst h <;> rfl
  have hg0 : g ≠ 0 := ne_of_gt (lt_trans (by norm_num) h2)
  have hg : (truthy (JSVal.num g) && numGT (JSVal.num g) (1 / 100)) = true := by
    have h2i : (100 : ℚ)⁻¹ < g := by rwa [← one_div]
    simp [truthy, numGT, hg0, h2i]
  unfold chooseDistance
  rw [hp, hg]
  simp

/-- C4 witness: the GPS branch at a concrete call. -/
theorem gps_branch_witness :
    ((JSVal.undef : JSVal ℚ) = JSVal.null ∨ (JSVal.undef : JSVal ℚ) = JSVal.undef) ∧
      (1 / 100 : ℚ) < 10 ∧
      chooseDistance JSVal.undef JSVal.undef (JSVal.num (10 : ℚ)) 3
        = (JSVal.num 10, "GPS tracking") :=
  ⟨Or.inr rfl, by norm_num,
    gps_branch JSVal.undef JSVal.undef 10 3 (Or.inr rfl) (by norm_num)⟩

/-- C6: the new odometer of a finalized trip is the rounded
user-provided end odometer when one was supplied, and otherwise the
rounded sum of the current odometer and the rounded chosen distance. -/
theorem new_odometer_rule (so cur : ℚ) (userOdo actual gps : JSVal ℚ) (sl : ℚ) :
    (tripEnd so cur userOdo actual gps sl).endOdometer
      = if provided userOdo then roundDistance userOdo
        else roundDistance
          (JSVal.num (cur + roundDistance (chooseDistance userOdo actual gps sl).1)) := rfl

/-- C8: the reconciliation is total and silently numeric: roundDistance
maps NaN, null and undefined to 0; a call whose odometer branch is
taken with a missing actualTravelledDistance still finalizes with
totalDistance 0; and every call yields numeric totalDistance and
endOdometer values. -/
theorem best_effort_numeric :
    (roundDistance (JSVal.nan : JSVal ℚ) = 0
      ∧ roundDistance (JSVal.null : JSVal ℚ) = 0
      ∧ roundDistance (JSVal.undef : JSVal ℚ) = 0)
    ∧ (∀ so cur : ℚ, ∀ gps : JSVal ℚ, ∀ sl : ℚ,
        (tripEnd so cur (JSVal.num 10) JSVal.undef gps sl).totalDistance = 0)
    ∧ (∀ so cur : ℚ, ∀ userOdo actual gps : JSVal ℚ, ∀ sl : ℚ,
        ∃ d e : ℚ, (tripEnd so cur userOdo actual gps sl).totalDistance = d
          ∧ (tripEnd so cur userOdo actual gps sl).endOdometer = e) :=
  ⟨⟨rfl, rfl, rfl⟩, fun _ _ _ _ => rfl, fun so cur userOdo actual gps sl =>
    ⟨(tripEnd so cur userOdo actual gps sl).totalDistance,
      (tripEnd so cur userOdo actual gps sl).endOdometer, rfl, rfl⟩⟩

/-- C10: roundDistance of any number is the floor or the ceiling of
that number, hence an integer, roundDistance is idempotent, and the
totalDistance of every finalized trip is a whole number. -/
theorem roundDistance_integral :
    (∀ q : ℚ,
        (roundDistance (JSVal.num q) = (⌊q⌋ : ℚ) ∨ roundDistance (JSVal.num q) = (⌈q⌉ : ℚ))
        ∧ (∃ n : ℤ, roundDistance (JSVal.num q) = (n : ℚ))
        ∧ roundDistance (JSVal.num (roundDistance (JSVal.num q)))
            = roundDistance (JSVal.num q))
    ∧ ∀ so cur : ℚ, ∀ userOdo actual gps : JSVal ℚ, ∀ sl : ℚ,
        ∃ n : ℤ, (tripEnd so cur userOdo actual gps sl).totalDistance = (n : ℚ) := by
  constructor
  · intro q
    refine ⟨?_, roundDistance_isInt (JSVal.num q), ?_⟩
    · rw [roundDistance_num]
      by_cases h : q - (⌊q⌋ : ℚ) ≤ 1 / 2
      · exact Or.inl (by rw [if_pos h])
      · exact Or.inr (by rw [if_neg h])
    · obtain ⟨n, hn⟩ := roundDistance_isInt (JSVal.num q)
      rw [hn, roundDistance_intCast]
  · intro so cur userOdo actual gps sl
    exact roundDistance_isInt _

/-! ## Real-valued helper lemmas -/

/-- arctan is nonnegative on nonnegative arguments. -/
lemma arctan_nonneg_of_nonneg {x : ℝ} (h : 0 ≤ x) : 0 ≤ Real.arctan x := by
  rw [← Real.arctan_zero]
  exact Real.arctan_strictMono.monotone h

/-- atan2 is nonnegative in the closed first quadrant. -/
lemma atan2_nonneg {y x : ℝ} (hy : 0 ≤ y) (hx : 0 ≤ x) : 0 ≤ atan2 y x := by
  unfold atan2
  split_ifs with h1 h2 h3 h4 h5
  · exact arctan_nonneg_of_nonneg (div_nonneg hy (le_of_lt h1))
  · linarith [h2.1]
  · linarith [h3.1]
  · positivity
  · linarith [h5.2]
  · exact le_refl 0

/-- atan2 of nonnegative square roots is nonnegative. -/
lemma atan2_sqrt_nonneg (y x : ℝ) : 0 ≤ atan2 (Real.sqrt y) (Real.sqrt x) :=
  atan2_nonneg (Real.sqrt_nonneg y) (Real.sqrt_nonneg x)

/-- atan2 at (0, 1) is zero. -/
lemma atan2_zero_one : atan2 0 1 = 0 := by
  unfold atan2
  rw [if_pos one_pos]
  simp [Real.arctan_zero]

/-- jsRound of zero is zero. -/
lemma jsRound_zero : jsRound 0 = 0 := by
  unfold jsRound
  rw [zero_add, show ⌊(1 / 2 : ℝ)⌋ = 0 from by rw [Int.floor_eq_iff]; norm_num]
  norm_num

/-- jsRound preserves nonnegativity. -/
lemma jsRound_nonneg {x : ℝ} (hx : 0 ≤ x) : 0 ≤ jsRound x := by
  unfold jsRound
  have h : (0 : ℤ) ≤ ⌊x + 1 / 2⌋ := Int.le_floor.mpr (by push_cast; linarith)
  exact_mod_cast h

/-- The Haversine distance of the source is nonnegative. -/
lemma calculateDistance_nonneg (lat1 lon1 lat2 lon2 : ℝ) :
    0 ≤ calculateDistance lat1 lon1 lat2 lon2 := by
  simp only [calculateDistance]
  refine div_nonneg (jsRound_nonneg ?_) (by norm_num)
  refine mul_nonneg (mul_nonneg (by norm_num)
    (mul_nonneg (by norm_num) (atan2_sqrt_nonneg _ _))) (by norm_num)

/-- The Haversine distance of the source is symmetric in its two
coordinate arguments. -/
lemma calculateDistance_comm (lat1 lon1 lat2 lon2 : ℝ) :
    calculateDistance lat1 lon1 lat2 lon2 = calculateDistance lat2 lon2 lat1 lon1 := by
  simp only [calculateDistance]
  have ha : Real.sin ((lat2 - lat1) * Real.pi / 180 / 2)
        * Real.sin ((lat2 - lat1) * Real.pi / 180 / 2)
      + Real.cos (lat1 * Real.pi / 180) * Real.cos (lat2 * Real.pi / 180)
        * Real.sin ((lon2 - lon1) * Real.pi / 180 / 2)
        * Real.sin ((lon2 - lon1) * Real.pi / 180 / 2)
      = Real.sin ((lat1 - lat2) * Real.pi / 180 / 2)
        * Real.sin ((lat1 - lat2) * Real.pi / 180 / 2)
      + Real.cos (lat2 * Real.pi / 180) * Real.cos (lat1 * Real.pi / 180)
        * Real.sin ((lon1 - lon2) * Real.pi / 180 / 2)
        * Real.sin ((lon1 - lon2) * Real.pi / 180 / 2) := by
    have e1 : (lat1 - lat2) * Real.pi / 180 / 2 = -((lat2 - lat1) * Real.pi / 180 / 2) := by
      ring
    have e2 : (lon1 - lon2) * Real.pi / 180 / 2 = -((lon2 - lon1) * Real.pi / 180 / 2) := by
      ring
    rw [e1, e2]
    simp only [Real.sin_neg]
    ring
  rw [ha]

/-- The Haversine distance of the source from a point to itself is
zero. -/
lemma calculateDistance_self (lat lon : ℝ) : calculateDistance lat lon lat lon = 0 := by
  simp only [calculateDistance]
  rw [show (lat - lat) * Real.pi / 180 / 2 = 0 from by ring,
    show (lon - lon) * Real.pi / 180 / 2 = 0 from by ring]
  simp [Real.sin_zero, Real.sqrt_zero, Real.sqrt_one, atan2_zero_one, jsRound_zero]

/-- C9: the Haversine distance function is symmetric in its two
coordinate arguments, and the distance from any point to itself is
zero. -/
theorem calculateDistance_symm_refl :
    (∀ lat1 lon1 lat2 lon2 : ℝ,
        calculateDistance lat1 lon1 lat2 lon2 = calculateDistance lat2 lon2 lat1 lon1)
    ∧ ∀ lat lon : ℝ, calculateDistance lat lon lat lon = 0 :=
  ⟨calculateDistance_comm, calculateDistance_self⟩

/-- C5: when userProvidedEndOdometer is absent and gpsDistance is
absent or a number not above 0.01, the chosen distance is the
Haversine straight-line distance between the stored start coordinate
and the supplied end coordinate (Earth radius 6371 km, rounded to two
decimals inside calculateDistance), with source tag straight-line
calculation. -/
theorem straight_line_fallback (userOdo actual gps : JSVal ℝ) (la1 lo1 la2 lo2 : ℝ)
    (h1 : userOdo = JSVal.null ∨ userOdo = JSVal.undef)
    (h2 : gps = JSVal.null ∨ gps = JSVal.undef
      ∨ ∃ g, gps = JSVal.num g ∧ g ≤ 1 / 100) :
    chooseDistance userOdo actual gps (calculateDistance la1 lo1 la2 lo2)
      = (JSVal.num (calculateDistance la1 lo1 la2 lo2), "straight-line calculation") := by
  have hp : provided userOdo = false := by
    rcases h1 with h | h <;> subst h <;> rfl
  have hg : (truthy gps && numGT gps (1 / 100)) = false := by
    rcases h2 with h | h | ⟨g, hgEq, hle⟩
    · subst h; rfl
    · subst h; rfl
    · subst hgEq
      have hle2 : g ≤ (100 : ℝ)⁻¹ := by rwa [one_div] at hle
      simp [numGT, hle2]
  unfold chooseDistance
  rw [hp, hg]
  simp

/-- C5 witness: the fallback at a concrete call with a gpsDistance of
0.005, below the 0.01 threshold. -/
theorem straight_line_fallback_witness :
    ((JSVal.undef : JSVal ℝ) = JSVal.null ∨ (JSVal.undef : JSVal ℝ) = JSVal.undef)
    ∧ ((JSVal.num (1 / 200 : ℝ)) = JSVal.null ∨ (JSVal.num (1 / 200 : ℝ)) = JSVal.undef
        ∨ ∃ g, JSVal.num (1 / 200 : ℝ) = JSVal.num g ∧ g ≤ 1 / 100)
    ∧ chooseDistance JSVal.undef JSVal.undef (JSVal.num (1 / 200 : ℝ))
          (calculateDistance 0 0 0 0)
        = (JSVal.num (calculateDistance 0 0 0 0), "straight-line calculation") :=
  ⟨Or.inr rfl, Or.inr (Or.inr ⟨1 / 200, rfl, by norm_num⟩),
    straight_line_fallback JSVal.undef JSVal.undef (JSVal.num (1 / 200)) 0 0 0 0
      (Or.inr rfl) (Or.inr (Or.inr ⟨1 / 200, rfl, by norm_num⟩))⟩

/-! ## Projection lemmas for the trip-end core -/

/-- The total distance of a finalized trip is the rounded chosen
distance. -/
lemma tripEnd_totalDistance (so cur : α) (userOdo actual gps : JSVal α) (sl : α) :
    (tripEnd so cur userOdo actual gps sl).totalDistance
      = roundDistance (chooseDistance userOdo actual gps sl).1 := rfl

/-- The start odometer of a finalized trip is the stored one. -/
lemma tripEnd_startOdometer (so cur : α) (userOdo actual gps : JSVal α) (sl : α) :
    (tripEnd so cur userOdo actual gps sl).startOdometer = so := rfl

/-- When the user odometer is absent, the new odometer is the rounded
sum of the current odometer and the total distance. -/
lemma tripEnd_endOdometer_not_provided {so cur : α} {userOdo actual gps : JSVal α} {sl : α}
    (hp : provided userOdo = false) :
    (tripEnd so cur userOdo actual gps sl).endOdometer
      = roundDistance
          (JSVal.num (cur + roundDistance (chooseDistance userOdo actual gps sl).1)) := by
  simp only [tripEnd]
  rw [hp]
  simp

/-- When the user odometer is absent, the rounding of the chosen
distance is nonnegative as soon as the straight-line fallback is. -/
lemma roundDistance_chooseDistance_nonneg {userOdo actual gps : JSVal α} {sl : α}
    (hp : provided userOdo = false) (hsl : 0 ≤ sl) :
    0 ≤ roundDistance (chooseDistance userOdo actual gps sl).1 := by
  unfold chooseDistance
  rw [hp]
  by_cases hb : (truthy gps && numGT gps (1 / 100)) = true
  · rw [hb]
    simp only [Bool.false_eq_true, if_false, if_true]
    cases gps with
    | num g =>
        have hgt : (1 : α) / 100 < g := by
          have h2 := (Bool.and_eq_true _ _).mp hb
          simpa [numGT] using h2.2
        exact roundDistance_num_nonneg (le_of_lt (lt_trans (by norm_num) hgt))
    | nan => simp [truthy] at hb
    | null => simp [truthy] at hb
    | undef => simp [truthy] at hb
  · rw [Bool.not_eq_true] at hb
    rw [hb]
    simp only [Bool.false_eq_true, if_false]
    exact roundDistance_num_nonneg hsl

/-- C7 counterexample: finalizing with userProvidedEndOdometer = 10
and actualTravelledDistance = -5 yields a negative totalDistance; and
finalizing with no user odometer, a current odometer of 5.5 and a GPS
distance of 2 yields endOdometer 7, not 5.5 + 2. -/
theorem finalized_trip_invariant_cex :
    (tripEnd (0 : ℚ) 0 (JSVal.num 10) (JSVal.num (-5)) JSVal.undef 0).totalDistance < 0
    ∧ provided (JSVal.undef : JSVal ℚ) = false
    ∧ (tripEnd (11 / 2 : ℚ) (11 / 2) JSVal.undef JSVal.undef (JSVal.num 2) 0).endOdometer
        ≠ (tripEnd (11 / 2 : ℚ) (11 / 2) JSVal.undef JSVal.undef
              (JSVal.num 2) 0).startOdometer
          + (tripEnd (11 / 2 : ℚ) (11 / 2) JSVal.undef JSVal.undef
              (JSVal.num 2) 0).totalDistance := by
  have hr2 : roundDistance (JSVal.num (2 : ℚ)) = 2 := by
    rw [show (2 : ℚ) = ((2 : ℤ) : ℚ) from by norm_num, roundDistance_intCast]
  have hguard : (truthy (JSVal.num (2 : ℚ)) && numGT (JSVal.num (2 : ℚ)) (1 / 100)) = true := by
    have hlt : (100 : ℚ)⁻¹ < 2 := by norm_num
    simp [truthy, numGT, hlt]
  have hc2 : chooseDistance (JSVal.undef : JSVal ℚ) JSVal.undef (JSVal.num 2) 0
      = (JSVal.num 2, "GPS tracking") := by
    unfold chooseDistance
    rw [show provided (JSVal.undef : JSVal ℚ) = false from rfl, hguard]
    simp
  refine ⟨?_, rfl, ?_⟩
  · show roundDistance (chooseDistance (JSVal.num (10 : ℚ)) (JSVal.num (-5))
      JSVal.undef 0).1 < 0
    show roundDistance (JSVal.num (-5 : ℚ)) < 0
    rw [show (-5 : ℚ) = ((-5 : ℤ) : ℚ) from by norm_num, roundDistance_intCast]
    norm_num
  · rw [tripEnd_endOdometer_not_provided
        (show provided (JSVal.undef : JSVal ℚ) = false from rfl),
      tripEnd_startOdometer, tripEnd_totalDistance, hc2]
    simp only
    rw [hr2, show roundDistance (JSVal.num (11 / 2 + 2 : ℚ)) = 7 from ?_]
    · norm_num
    · rw [show (11 / 2 + 2 : ℚ) = 15 / 2 from by norm_num, roundDistance_num,
        show ⌊(15 / 2 : ℚ)⌋ = 7 from by rw [Int.floor_eq_iff]; norm_num,
        if_pos (by norm_num)]
      norm_num

/-- C7 (amended): a finalized trip for which no user end-odometer was
supplied has nonnegative totalDistance; and when additionally the
current odometer at trip end is a whole number equal to the stored
startOdometer, the endOdometer equals startOdometer plus
totalDistance. -/
theorem finalized_trip_invariant_amended (so cur : ℝ) (userOdo actual gps : JSVal ℝ)
    (la1 lo1 la2 lo2 : ℝ)
    (h1 : userOdo = JSVal.null ∨ userOdo = JSVal.undef) :
    0 ≤ (tripEndReal so cur userOdo actual gps la1 lo1 la2 lo2).totalDistance
    ∧ ((∃ n : ℤ, cur = (n : ℝ)) → cur = so →
        (tripEndReal so cur userOdo actual gps la1 lo1 la2 lo2).endOdometer
          = (tripEndReal so cur userOdo actual gps la1 lo1 la2 lo2).startOdometer
            + (tripEndReal so cur userOdo actual gps la1 lo1 la2 lo2).totalDistance) := by
  have hp : provided userOdo = false := by
    rcases h1 with h | h <;> subst h <;> rfl
  have htd : (tripEndReal so cur userOdo actual gps la1 lo1 la2 lo2).totalDistance
      = roundDistance
          (chooseDistance userOdo actual gps (calculateDistance la1 lo1 la2 lo2)).1 := rfl
  have hnn : 0 ≤ roundDistance
      (chooseDistance userOdo actual gps (calculateDistance la1 lo1 la2 lo2)).1 :=
    roundDistance_chooseDistance_nonneg hp (calculateDistance_nonneg la1 lo1 la2 lo2)
  refine ⟨by rw [htd]; exact hnn, ?_⟩
  rintro ⟨n, hn⟩ h3
  obtain ⟨m, hm⟩ := roundDistance_isInt
    (chooseDistance userOdo actual gps (calculateDistance la1 lo1 la2 lo2)).1
  have he : (tripEndReal so cur userOdo actual gps la1 lo1 la2 lo2).endOdometer
      = roundDistance (JSVal.num (cur + roundDistance
          (chooseDistance userOdo actual gps (calculateDistance la1 lo1 la2 lo2)).1)) :=
    tripEnd_endOdometer_not_provided hp
  have hso : (tripEndReal so cur userOdo actual gps la1 lo1 la2 lo2).startOdometer = so :=
    rfl
  rw [he, hso, htd, hm, hn,
    show ((n : ℝ) + (m : ℝ)) = (((n + m : ℤ)) : ℝ) from by push_cast; ring,
    roundDistance_intCast, ← h3, hn]
  push_cast
  ring

/-- C7 witness: the amended invariant at a concrete call with an
integral odometer of 5 and equal coordinates. -/
theorem finalized_trip_invariant_amended_witness :
    ((JSVal.undef : JSVal ℝ) = JSVal.null ∨ (JSVal.undef : JSVal ℝ) = JSVal.undef)
    ∧ (∃ n : ℤ, (5 : ℝ) = (n : ℝ)) ∧ (5 : ℝ) = 5
    ∧ (0 ≤ (tripEndReal 5 5 JSVal.undef JSVal.undef JSVal.undef 0 0 0 0).totalDistance
      ∧ (tripEndReal 5 5 JSVal.undef JSVal.undef JSVal.undef 0 0 0 0).endOdometer
        = (tripEndReal 5 5 JSVal.undef JSVal.undef JSVal.undef 0 0 0 0).startOdometer
          + (tripEndReal 5 5 JSVal.undef JSVal.undef JSVal.undef 0 0 0 0).totalDistance) :=
  ⟨Or.inr rfl, ⟨5, by norm_num⟩, rfl,
    (finalized_trip_invariant_amended 5 5 JSVal.undef JSVal.undef JSVal.undef 0 0 0 0
      (Or.inr rfl)).1,
    (finalized_trip_invariant_amended 5 5 JSVal.undef JSVal.undef JSVal.undef 0 0 0 0
      (Or.inr rfl)).2 ⟨5, by norm_num⟩ rfl⟩

end TripGo
